import Mathlib

/-!
Shallow embedding of the Nmind Companion browser-extension messaging layer:
the `Message` primitives (`src/shared/nmind-messaging/Message.ts`), the
`Endpoint` router (`Endpoint.ts`), the request/response transport adapters
(`NativeHostClient.js`, `BackgroundListener.ts`), and the download / printer
services (`DownloadService.ts`, `PrinterService.ts`).

JavaScript runtime values that flow through these functions are modelled by
`JSVal`; handler side effects are modelled by explicit state passing with an
abstract state type `S`.
-/

namespace Nmind

/-- A JavaScript runtime value, as far as the messaging layer inspects one:
`undefined`, `null`, booleans, numbers, strings, arrays and plain objects
(association lists of named fields). -/
inductive JSVal where
  | undefined : JSVal
  | null : JSVal
  | bool : Bool → JSVal
  | num : Int → JSVal
  | str : String → JSVal
  | arr : List JSVal → JSVal
  | obj : List (String × JSVal) → JSVal

/-- JavaScript truthiness: `undefined`, `null`, `false`, `0` and `""` are
falsy; every other value (including every array and object) is truthy. -/
def JSVal.truthy : JSVal → Bool
  | .undefined => false
  | .null => false
  | .bool b => b
  | .num n => n != 0
  | .str s => s != ""
  | .arr _ => true
  | .obj _ => true

/-- JavaScript `typeof x === "object"`: true for `null`, arrays and plain objects. -/
def JSVal.isObjType : JSVal → Bool
  | .null => true
  | .arr _ => true
  | .obj _ => true
  | _ => false

/-- JavaScript `x === null`. -/
def JSVal.isNull : JSVal → Bool
  | .null => true
  | _ => false

/-- Field lookup in an association list of object fields (first binding wins). -/
def fieldLookup : List (String × JSVal) → String → JSVal
  | [], _ => .undefined
  | (k, v) :: rest, key => if k == key then v else fieldLookup rest key

/-- Property read `x[key]` as it behaves on the values the messaging layer
feeds it: a field of an object, `undefined` on anything else.  Used where the
source reads a property through optional chaining (`err?.message`) or after an
object-type guard, so the `null`/`undefined` crash cases never arise. -/
def JSVal.get : JSVal → String → JSVal
  | .obj fs, key => fieldLookup fs key
  | _, _ => .undefined

/-- JavaScript `a || b`. -/
def jsOr (a b : JSVal) : JSVal := if a.truthy then a else b

/-- The ASCII single-quote character (code 39), as a one-character string;
used to spell the quotes of the `Unknown route` message. -/
def squote : String := String.mk [Char.ofNat 39]

/-! ## Message primitives (`Message.ts`)

The four response classes `Success` (200), `Failure` (403), `Unknown` (404)
and `ScriptError` (500) are one inductive; the class of the value determines
its `code`. -/

/-- A `Response` instance: one of the four concrete classes of `Message.ts`,
with the fields its constructor stores. -/
inductive Response where
  /-- Class `Success`: `name`, `refid` (always `undefined` at construction),
  `content`. -/
  | success (name : Option String) (refid : Option String) (content : JSVal)
  /-- Class `Failure`: `name`, `type` (after `type || null`), `message`. -/
  | failure (name : Option String) (type_ : JSVal) (message : JSVal)
  /-- Class `Unknown`: `name`, `message`. -/
  | unknown (name : Option String) (message : String)
  /-- Class `ScriptError`: `name`, `type` (after `type || null`), `message`. -/
  | scriptError (name : Option String) (type_ : JSVal) (message : JSVal)

/-- The `code` carried by a response: fixed by its class. -/
def Response.code : Response → Nat
  | .success .. => 200
  | .failure .. => 403
  | .unknown .. => 404
  | .scriptError .. => 500

/-- The `message` property as transport adapters read it
(`response.message`): `undefined` on a `Success`, which has no such field. -/
def Response.message : Response → JSVal
  | .success .. => .undefined
  | .failure _ _ m => m
  | .unknown _ m => .str m
  | .scriptError _ _ m => m

/-- The `type` property as transport adapters read it (`response.type`):
`undefined` on `Success` and `Unknown`, which have no such field. -/
def Response.type_ : Response → JSVal
  | .success .. => .undefined
  | .failure _ t _ => t
  | .unknown .. => .undefined
  | .scriptError _ t _ => t

/-- Constructor `new Success(data, name)`: code 200, `refid = undefined`,
`content = data`. -/
def Message.success (data : JSVal) (name : Option String) : Response :=
  .success name none data

/-- Constructor `new Failure(message, type, name)`: code 403, `type = type || null`. -/
def Message.failure (message : JSVal) (type_ : JSVal) (name : Option String) :
    Response :=
  .failure name (jsOr type_ .null) message

/-- Constructor `new Unknown(message, name)`: code 404. -/
def Message.unknown (message : String) (name : Option String) : Response :=
  .unknown name message

/-- Constructor `new ScriptError(err, type, name)` (`Message.error`), line for line:

```js
if (typeof err === "object" && err !== null && err.message) {
  if (err.message) err = err.message;
  if (err.type) type = err.type;
}
this.name = name;
this.type = type || null;
this.message = err;
```

Note that `err` is reassigned to `err.message` *before* `err.type` is read,
so the `type` probe is made on the extracted message, not on the original
error-like object. -/
def Message.error (err : JSVal) (type_ : JSVal) (name : Option String) :
    Response :=
  if err.isObjType && !err.isNull && (err.get "message").truthy then
    let err2 := err.get "message"
    let type2 := if (err2.get "type").truthy then err2.get "type" else type_
    .scriptError name (jsOr type2 .null) err2
  else
    .scriptError name (jsOr type_ .null) err

/-- A `Request` as built by `Message.request(name, params)` and consumed by
`Endpoint.route`. -/
structure Request where
  name : String
  params : JSVal
  id : String
  delay : Int
  async : Bool
  silent : Bool

/-- Factory `Message.request(name, params)`: defaults `id = "-1"`, `delay = 0`,
`async = false`, `silent = false`. -/
def Message.request (name : String) (params : JSVal) : Request :=
  { name := name, params := params, id := "-1", delay := 0,
    async := false, silent := false }

/-! ## Endpoint router (`Endpoint.ts`)

Handlers are JavaScript functions that may read and write ambient state and
may throw; they are embedded as state-passing functions `S → List JSVal →
HandlerOut × S` over an abstract side-effect state `S`.  The result of a handler is
either a thrown value, a pending `Promise` (kept opaque), a `Response`
instance, or any other value. -/

/-- An opaque pending asynchronous result (a `Promise` identity). -/
structure PromiseV where
  pid : Nat
deriving DecidableEq

/-- Outcome of invoking a JavaScript route handler: it threw, or returned a
`Promise`, a `Response` instance, or any other value. -/
inductive HandlerOut where
  | thrown (err : JSVal)
  | promise (p : PromiseV)
  | response (r : Response)
  | value (v : JSVal)

/-- A route handler: receives the argument list built by `_buildArguments`
and the ambient state, produces a `HandlerOut` and the updated state. -/
def Handler (S : Type) := S → List JSVal → HandlerOut × S

/-- The duck-typed forwarder interface: an endpoint-like object that may
expose a callable `request` and/or a callable `post` method (`none` models
the absence of a callable method, as probed by
`typeof this.forwarder.request === "function"`). -/
structure Forwarder (S : Type) where
  request : Option (String → JSVal → S → HandlerOut × S)
  post : Option (String → JSVal → S → HandlerOut × S)

/-- The empty forwarder `{}` installed by the `Endpoint` constructor (and by
"removing" a join): neither a callable `request` nor a callable `post`. -/
def Forwarder.empty (S : Type) : Forwarder S := { request := none, post := none }

/-- The `Endpoint` routing table: the exact-name handler record `routes`, the
two pipe registries (`pipes.plain` exact strings, `pipes.regexp` patterns —
an entry is `none` where the `delete` of `unpipe` left a hole), the current
`forwarder`, and the optional `request`/`post` methods of the endpoint itself
(present on transport subclasses, absent on a plain `Endpoint`), which become
the forwarder capabilities of the other side under `join`. -/
structure Endpoint (S : Type) where
  routes : List (String × Handler S)
  pipesPlain : List String
  pipesRegexp : List (Option (String → Bool))
  forwarder : Forwarder S
  requestM : Option (String → JSVal → S → HandlerOut × S)
  postM : Option (String → JSVal → S → HandlerOut × S)

/-- Handler-table lookup `this.routes[name]` (first binding wins). -/
def lookupRoute {S : Type} : List (String × Handler S) → String →
    Option (Handler S)
  | [], _ => none
  | (k, h) :: rest, name => if k == name then some h else lookupRoute rest name

/-- The duck-typed view of an endpoint used when it is installed as another
forwarder of another endpoint: its `request`/`post` methods, when callable. -/
def Endpoint.asForwarder {S : Type} (ep : Endpoint S) : Forwarder S :=
  { request := ep.requestM, post := ep.postM }

/-- Method `join(endpoint)`: sets mutual forwarder references; returns the pair
(this, endpoint) after the mutation. -/
def Endpoint.join {S : Type} (a b : Endpoint S) : Endpoint S × Endpoint S :=
  ({ a with forwarder := b.asForwarder }, { b with forwarder := a.asForwarder })

/-- Method `forward(route, params)`: prefers a callable `forwarder.request`, then a
callable `forwarder.post`; with neither, falls through and returns
`undefined`. -/
def Endpoint.forward {S : Type} (ep : Endpoint S) (route : String)
    (params : JSVal) (s : S) : HandlerOut × S :=
  match ep.forwarder.request with
  | some fn => fn route params s
  | none =>
    match ep.forwarder.post with
    | some fn => fn route params s
    | none => (.value .undefined, s)

/-- Method `_createPipe(route)`: a synthetic handler that repacks its arguments into
a single params value (`null` for no argument, the argument itself for one,
an array for several) and calls `this.forward(route, params)`. -/
def Endpoint.createPipe {S : Type} (ep : Endpoint S) (route : String) :
    Handler S :=
  fun s args =>
    let params : JSVal :=
      match args with
      | [] => .null
      | [a] => a
      | _ => .arr args
    ep.forward route params s

/-- The `for (const regexp of this.pipes.regexp)` loop of `_findRoute`: scans
the pattern list in registration order, skipping holes (`if (regexp && ...)`),
and reports whether some pattern tests true for the name. -/
def regexpPipeMatch : List (Option (String → Bool)) → String → Bool
  | [], _ => false
  | none :: rest, name => regexpPipeMatch rest name
  | some rx :: rest, name =>
    if rx name then true else regexpPipeMatch rest name

/-- Method `_findRoute(request)`: (1) the exact-name handler table, then (2) the
exact string pipe list, then (3) the pattern pipe list in registration order;
a pipe match yields the synthetic `_createPipe` handler; otherwise `null`. -/
def Endpoint.findRoute {S : Type} (ep : Endpoint S) (name : String) :
    Option (Handler S) :=
  match lookupRoute ep.routes name with
  | some h => some h
  | none =>
    if ep.pipesPlain.contains name then
      some (ep.createPipe name)
    else if regexpPipeMatch ep.pipesRegexp name then
      some (ep.createPipe name)
    else
      none

/-- Method `_buildArguments(request, port)`: with a truthy `port`, `[port,
...params]` for array params and `[port, params]` otherwise; without one,
array params are spread and any other params value is passed alone. -/
def buildArguments (req : Request) (port : JSVal) : List JSVal :=
  if port.truthy then
    match req.params with
    | .arr xs => port :: xs
    | v => [port, v]
  else
    match req.params with
    | .arr xs => xs
    | v => [v]

/-- The result `route()` hands back when a handler (or the unknown-route
branch) produced one: a pending `Promise` or a `Response` instance. -/
inductive RouteResult where
  | promise (p : PromiseV)
  | response (r : Response)

/-- Method `_routeCall(route, args, context)`: invoke the handler; a `Promise` or a
`Response` instance is returned as-is, any other value is wrapped by
`Message.success(value)`; a thrown value is caught and converted to
`Message.failure(err?.message)`. -/
def Endpoint.routeCall {S : Type} (h : Handler S) (args : List JSVal)
    (s : S) : RouteResult × S :=
  match h s args with
  | (.thrown err, s1) => (.response (Message.failure (err.get "message") .undefined none), s1)
  | (.promise p, s1) => (.promise p, s1)
  | (.response r, s1) => (.response r, s1)
  | (.value v, s1) => (.response (Message.success v none), s1)

/-- Method `route(request, port)`: resolve with `_findRoute`; if a handler is found,
build its arguments, run it through `_routeCall`, and return the result —
unless `request.silent` is true, in which case nothing is returned (`none`)
although the handler did run; if no handler matches, return the
`Message.unknown` response for the name synchronously. -/
def Endpoint.route {S : Type} (ep : Endpoint S) (req : Request)
    (port : JSVal) (s : S) : Option RouteResult × S :=
  match ep.findRoute req.name with
  | some h =>
    let args := buildArguments req port
    let (response, s1) := Endpoint.routeCall h args s
    if req.silent == false then (some response, s1) else (none, s1)
  | none =>
    (some (.response (Message.unknown ("Unknown route " ++ squote ++ req.name ++ squote) none)), s)

/-! ## Transport adapters

`NativeHostClient.request` (`NativeHostClient.js`) and
`BackgroundListener.handleRequest` (`BackgroundListener.ts`) both wrap a
downstream response in a deferred result that resolves only on code 200 and
rejects with `Message.error(response.message, response.type)` otherwise. -/

/-- How a deferred result settles: resolved with the downstream response
object, or rejected with an error-shaped value. -/
inductive Settle (α : Type) where
  | resolved (v : α)
  | rejected (e : Response)

/-- A raw response object received from the native messaging host:
`{code, message?, type?, ...}` (a plain JSON object, not a `Response`
instance). -/
structure NativeResponse where
  code : Int
  message : JSVal
  type_ : JSVal

/-- The settle logic of `NativeHostClient.request`: when
`sendNativeMessage` fulfills with `response`, resolve the deferred result if
`response.code == 200`, else reject it with
`Message.error(response.message, response.type)`.  No retry is attempted:
every response settles the deferred result exactly once, by this function
alone. -/
def NativeHostClient.settleResponse (resp : NativeResponse) :
    Settle NativeResponse :=
  if resp.code == 200 then
    .resolved resp
  else
    .rejected (Message.error resp.message resp.type_ none)

/-- What `BackgroundListener.handleRequest` hands back to the runtime:
the routed `Promise` unchanged, a deferred result settled from a `Response`,
or — when `route` returned `undefined` (silent request) — a deferred result
rejected with the `TypeError` thrown by reading `response.code` inside the
promise executor. -/
inductive HandleResult where
  | pendingPromise (p : PromiseV)
  | settled (s : Settle Response)
  | rejectedTypeError

/-- Method `BackgroundListener.handleRequest(message, port)`: route the request
through `Endpoint.route`; a `Promise` result is returned as-is; otherwise a
deferred result is created that resolves when `response.code == 200` and
rejects with `Message.error(response.message, response.type)` for every
other code.  (`BackgroundListener extends Endpoint`; its `_createPipe`
override only affects pipe routes, not this settle logic.) -/
def BackgroundListener.handleRequest {S : Type} (ep : Endpoint S)
    (req : Request) (port : JSVal) (s : S) : HandleResult × S :=
  match Endpoint.route ep req port s with
  | (some (.promise p), s1) => (.pendingPromise p, s1)
  | (some (.response r), s1) =>
    if r.code == 200 then
      (.settled (.resolved r), s1)
    else
      (.settled (.rejected (Message.error r.message r.type_ none)), s1)
  | (none, s1) => (.rejectedTypeError, s1)

/-! ## Download service (`DownloadService.ts`)

State: the in-flight job registry `jobs` keyed by download id.  Externally
visible actions (the `onFinish` callback and the `downloads.removeFile` /
`downloads.erase` browser calls) are recorded in an effect list. -/

/-- A `DownloadJobResponse` value object (`DownloadJobResponse.ts`):
`id`/`name` are copied from the input job (possibly `undefined`),
`destination`, `reason`, `success`, `downloading`. -/
structure DownloadJobResponse where
  id : JSVal
  name : JSVal
  destination : JSVal
  reason : JSVal
  success : Bool
  downloading : Bool

/-- An entry of `DownloadService.jobs`: caller port, the
`DownloadJobResponse` (or `null` for downloads first seen via `onCreated`),
whether an `onFinish` callback is present, and progress metadata. -/
structure DJob where
  port : JSVal
  response : Option DownloadJobResponse
  onFinish : Bool
  filename : JSVal
  fileSize : Int
  totalBytes : Int
  existsF : Option Bool

/-- In-memory state of the download service: the `jobs` registry. -/
structure DsState where
  jobs : List (Nat × DJob)

/-- Registry lookup `this.jobs[id]`. -/
def DsState.lookupJob (st : DsState) (id : Nat) : Option DJob :=
  match st.jobs.find? (fun e => e.1 == id) with
  | some e => some e.2
  | none => none

/-- In-place update of `this.jobs[id]` (no-op when absent). -/
def DsState.updateJob (st : DsState) (id : Nat) (job : DJob) : DsState :=
  { jobs := st.jobs.map (fun e => if e.1 == id then (e.1, job) else e) }

/-- Deletion `delete this.jobs[id]`. -/
def DsState.deleteJob (st : DsState) (id : Nat) : DsState :=
  { jobs := st.jobs.filter (fun e => e.1 != id) }

/-- Externally visible download-service actions, in order of occurrence. -/
inductive DsEffect where
  /-- Call `onFinish(port, response)` made by `_notifyDownloadJob`. -/
  | notify (port : JSVal) (response : DownloadJobResponse)
  /-- Call `browser.downloads.removeFile(id)`: delete the downloaded file. -/
  | removeFile (id : Nat)
  /-- Call `browser.downloads.erase(...)` with the id: delete the download history entry. -/
  | erase (id : Nat)

/-- Whether an effect is the `removeFile` browser call. -/
def DsEffect.isRemoveFile : DsEffect → Bool
  | .removeFile _ => true
  | _ => false

/-- Whether an effect is the `erase` browser call. -/
def DsEffect.isErase : DsEffect → Bool
  | .erase _ => true
  | _ => false

/-- Method `_notifyDownloadJob(id, success, reason)`: when the job has both a
response object and an `onFinish` callback, update the response
(`downloading = false`, the success flag, `reason = reason || ""`,
`destination = filename`) and call `onFinish(port, response)`; otherwise do
nothing.  `none` models the `TypeError` raised when `this.jobs[id]` is
absent. -/
def notifyDownloadJob (st : DsState) (id : Nat) (success : Bool)
    (reason : JSVal) : Option (DsState × List DsEffect) :=
  match st.lookupJob id with
  | none => none
  | some job =>
    if job.response.isSome && job.onFinish then
      match job.response with
      | some r =>
        let r1 : DownloadJobResponse :=
          { r with downloading := false, success := success,
                   reason := jsOr reason (.str ""), destination := job.filename }
        some (st.updateJob id { job with response := some r1 },
              [.notify job.port r1])
      | none => some (st, [])
    else
      some (st, [])

/-- Method `_cleanupJob(id, removeFile)`: delete the registry entry; when
`removeFile === true`, also remove the downloaded file and erase its history
entry. -/
def cleanupJob (st : DsState) (id : Nat) (removeFile : Bool) :
    DsState × List DsEffect :=
  (st.deleteJob id, if removeFile == true then [.removeFile id, .erase id] else [])

/-- A `downloads.onChanged` delta: the download id plus the optional
`.current` values the listener reads (`error`, `filename`, `fileSize`,
`totalBytes`, `exists`, `state`). -/
structure Delta where
  id : Nat
  error : Option JSVal
  filename : Option JSVal
  fileSize : Option Int
  totalBytes : Option Int
  existsD : Option Bool
  state : Option String

/-- Outcome of `_onChangedListener`: the new state with the effects emitted,
or the `TypeError` raised when a field of a just-deleted job (or of a `null`
response) is accessed. -/
inductive DsOutcome where
  | ok (st : DsState) (effs : List DsEffect)
  | typeError

/-- The field-update section of `_onChangedListener` (the four
`if (delta.x)` blocks between the error branch and the state branch): each
present delta field writes into `this.jobs[delta.id]` — a `TypeError`
(`none`) when the job is gone, or when `delta.filename` writes
`response.destination` through a `null` response. -/
def applyDeltaFields (st : DsState) (delta : Delta) : Option DsState := do
  let st ← match delta.filename with
    | some cur =>
      match st.lookupJob delta.id with
      | none => none
      | some job =>
        match job.response with
        | none => none
        | some r =>
          some (st.updateJob delta.id
            { job with filename := cur, response := some { r with destination := cur } })
    | none => some st
  let st ← match delta.fileSize with
    | some cur =>
      match st.lookupJob delta.id with
      | none => none
      | some job => some (st.updateJob delta.id { job with fileSize := cur })
    | none => some st
  let st ← match delta.totalBytes with
    | some cur =>
      match st.lookupJob delta.id with
      | none => none
      | some job => some (st.updateJob delta.id { job with totalBytes := cur })
    | none => some st
  match delta.existsD with
    | some cur =>
      match st.lookupJob delta.id with
      | none => none
      | some job => some (st.updateJob delta.id { job with existsF := some cur })
    | none => some st

/-- Method `_onChangedListener(delta)`: return early when the id is untracked;
on `delta.error`, notify failure and clean up with file removal; apply the
field updates; then on `delta.state.current === "complete"`, treat a
recorded `fileSize` of 0 as a failure (`"Empty content"`, cleanup with file
removal) and anything else as success (cleanup without file removal);
`"interrupted"` and other states fall through. -/
def onChangedListener (st : DsState) (delta : Delta) : DsOutcome :=
  match st.lookupJob delta.id with
  | none => .ok st []
  | some _ =>
    let step1 : Option (DsState × List DsEffect) :=
      match delta.error with
      | some errCur =>
        match notifyDownloadJob st delta.id false errCur with
        | none => none
        | some (st1, effs1) =>
          let (st2, effs2) := cleanupJob st1 delta.id true
          some (st2, effs1 ++ effs2)
      | none => some (st, [])
    match step1 with
    | none => .typeError
    | some (st1, effs1) =>
      match applyDeltaFields st1 delta with
      | none => .typeError
      | some st2 =>
        match delta.state with
        | some "complete" =>
          match st2.lookupJob delta.id with
          | none => .typeError
          | some job =>
            if job.fileSize == 0 then
              match notifyDownloadJob st2 delta.id false (.str "Empty content") with
              | none => .typeError
              | some (st3, effs3) =>
                let (st4, effs4) := cleanupJob st3 delta.id true
                .ok st4 (effs1 ++ effs3 ++ effs4)
            else
              match notifyDownloadJob st2 delta.id true .undefined with
              | none => .typeError
              | some (st3, effs3) =>
                let (st4, effs4) := cleanupJob st3 delta.id false
                .ok st4 (effs1 ++ effs3 ++ effs4)
        | _ => .ok st2 effs1

/-! ## Printer service (`PrinterService.ts`) -/

/-- The input to `PrinterService.createJob`: `filename`, an optional
`printerName` (kept as a raw value, since the source only tests its
truthiness), and whether an `onFinish` callback is attached. -/
structure PrintJobIn where
  filename : String
  printerName : JSVal
  onFinish : Bool

/-- A stored print job (the input job after `delete job.onFinish`, plus the
`success`/`reason` fields written by the settle callbacks). -/
structure StoredPJob where
  filename : String
  printerName : JSVal
  success : Option Bool
  reason : Option JSVal

/-- State of the printer service: configuration plus the `jobs` registry
keyed by filename. -/
structure PsState where
  dirPrinters : Option String
  hostClientConfigured : Bool
  jobs : List (String × StoredPJob)

/-- Externally visible printer-service actions. -/
inductive PsEffect where
  /-- Call `hostClient.request` of `companion.document.print` with printerName and path. -/
  | hostRequest (printerName : JSVal) (path : String)
  /-- Invocation `onFinish(port, job)`. -/
  | onFinishCall (port : JSVal) (job : StoredPJob)

/-- Method `PrinterService.createJob(port, job)` — the synchronous part:
if `job.printerName` is falsy, return `undefined` immediately (no native
call, no callback, no state change); otherwise strip `onFinish` from the
job, store it under `job.filename`, and either fail it at once when no
`hostClient` is configured, or issue the native
`companion.document.print` request (whose `then`/`catch` continuations
settle the job later).  Returns the `undefined` function result together
with the new state and the effects emitted synchronously. -/
def PrinterService.createJob (st : PsState) (port : JSVal)
    (job : PrintJobIn) : JSVal × PsState × List PsEffect :=
  if !job.printerName.truthy then
    (.undefined, st, [])
  else
    let id := job.filename
    let stored : StoredPJob :=
      { filename := job.filename, printerName := job.printerName,
        success := none, reason := none }
    let st1 : PsState := { st with jobs := (id, stored) :: st.jobs.filter (fun e => e.1 != id) }
    if !st1.hostClientConfigured then
      let stored1 : StoredPJob :=
        { stored with success := some false,
                      reason := some (.str "PrinterService not configured (hostClient is null)") }
      let effs := if job.onFinish then [PsEffect.onFinishCall port stored1] else []
      (.undefined, { st1 with jobs := st1.jobs.filter (fun e => e.1 != id) }, effs)
    else
      (.undefined, st1, [PsEffect.hostRequest job.printerName job.filename])

/-! ## Concrete instances used by counterexamples and witnesses -/

/-- A handler returning the plain string `"pong"` (no state change). -/
def pongHandler : Handler Nat := fun s _ => (.value (.str "pong"), s)

/-- A handler returning a pending promise. -/
def pendingHandler : Handler Nat := fun s _ => (.promise ⟨7⟩, s)

/-- A handler returning a ready-made `Failure` response instance. -/
def readyHandler : Handler Nat :=
  fun s _ => (.response (Message.failure (.str "nope") .undefined none), s)

/-- A handler that increments the ambient counter and returns a plain value. -/
def counterHandler : Handler Nat := fun s _ => (.value .null, s + 1)

/-- A handler that throws an Error-like object with message `"kaboom"`. -/
def throwObjHandler : Handler Nat :=
  fun s _ => (.thrown (.obj [("message", .str "kaboom")]), s)

/-- A handler that throws the bare string `"oops"` (no `message` field). -/
def throwStrHandler : Handler Nat :=
  fun s _ => (.thrown (.str "oops"), s)

/-- A structurally computable prefix test standing in for the
`/^companion\./`-style route patterns of the repository. -/
def patPrefixOf (pre : String) : String → Bool :=
  fun n => pre.data.isPrefixOf n.data

/-- A concrete endpoint over a `Nat` side-effect counter: one registered
route per handler behaviour, an exact string pipe `"plainpipe"`, and two
patterns — one matching `"ping"` as well (so a registered name is also
pattern-matched), one matching every `"companion."`-prefixed name. -/
def exEndpoint : Endpoint Nat :=
  { routes := [("ping", pongHandler), ("pend", pendingHandler),
               ("ready", readyHandler), ("count", counterHandler),
               ("boomObj", throwObjHandler), ("boomStr", throwStrHandler)],
    pipesPlain := ["plainpipe"],
    pipesRegexp := [some (fun n => n == "ping"),
                    some (patPrefixOf "companion.")],
    forwarder := Forwarder.empty Nat,
    requestM := none,
    postM := none }

/-! ## Router theorems -/

/-- Helper: a name present in the handler table resolves there, whatever the
pipe registries hold. -/
theorem findRoute_of_registered {S : Type} (ep : Endpoint S) (name : String)
    (h : Handler S) (hreg : lookupRoute ep.routes name = some h) :
    ep.findRoute name = some h := by
  simp [Endpoint.findRoute, hreg]

/-- Helper: the second component of `_routeCall` is the state produced by the
handler invocation, whatever the handler returned or threw. -/
theorem routeCall_state {S : Type} (h : Handler S) (args : List JSVal)
    (s : S) : (Endpoint.routeCall h args s).2 = (h s args).2 := by
  unfold Endpoint.routeCall
  cases hout : h s args with
  | mk out s1 => cases out <;> rfl

/-- C3: for every request name, `Endpoint` route resolution tries exactly
these sources in this order and takes the first match: (1) the exact-name
handler table, (2) the exact string pipe list, (3) the regexp pipe list (its
scan, `regexpPipeMatch`, walks the list in registration order); in
particular a name that is both a registered handler and matched by a pipe
pattern is resolved to the registered handler — the first conjunct holds
with no assumption on the pipe registries.  A pipe match of either kind
yields the synthetic `_createPipe` forwarding handler, which depends only on
the name, so which pattern matched first is not observable beyond the fact
of a match. -/
theorem route_resolution_order {S : Type} (ep : Endpoint S) (name : String) :
    (∀ h : Handler S, lookupRoute ep.routes name = some h →
        ep.findRoute name = some h) ∧
    (lookupRoute ep.routes name = none →
      ep.pipesPlain.contains name = true →
        ep.findRoute name = some (ep.createPipe name)) ∧
    (lookupRoute ep.routes name = none →
      ep.pipesPlain.contains name = false →
        regexpPipeMatch ep.pipesRegexp name = true →
        ep.findRoute name = some (ep.createPipe name)) := by
  refine ⟨fun h hh => ?_, fun h1 h2 => ?_, fun h1 h2 h3 => ?_⟩
  · unfold Endpoint.findRoute
    rw [hh]
  · unfold Endpoint.findRoute
    rw [h1, h2]
    simp
  · unfold Endpoint.findRoute
    rw [h1, h2, h3]
    simp

/-- Witness for C3: at the concrete endpoint, `"ping"` is simultaneously
registered and matched by a pattern pipe yet resolves to the registered
handler; `"plainpipe"` resolves via the exact pipe list; `"companion.x"`
via the pattern list. -/
theorem route_resolution_order_witness :
    (lookupRoute exEndpoint.routes "ping" = some pongHandler ∧
      regexpPipeMatch exEndpoint.pipesRegexp "ping" = true ∧
      exEndpoint.findRoute "ping" = some pongHandler) ∧
    (lookupRoute exEndpoint.routes "plainpipe" = none ∧
      exEndpoint.pipesPlain.contains "plainpipe" = true ∧
      exEndpoint.findRoute "plainpipe" = some (exEndpoint.createPipe "plainpipe")) ∧
    (lookupRoute exEndpoint.routes "companion.x" = none ∧
      exEndpoint.pipesPlain.contains "companion.x" = false ∧
      regexpPipeMatch exEndpoint.pipesRegexp "companion.x" = true ∧
      exEndpoint.findRoute "companion.x" = some (exEndpoint.createPipe "companion.x")) :=
  ⟨⟨rfl, rfl, (route_resolution_order exEndpoint "ping").1 pongHandler rfl⟩,
   ⟨rfl, rfl, (route_resolution_order exEndpoint "plainpipe").2.1 rfl rfl⟩,
   ⟨rfl, rfl, rfl,
     (route_resolution_order exEndpoint "companion.x").2.2 rfl rfl rfl⟩⟩

/-- C4: for every registered route invoked through `route()` on a non-silent
request, a pending promise returned by the handler is returned unchanged, an
already-tagged `Response` instance is returned unchanged, and any other
return value is wrapped into a `Success` (code 200) response whose content
is that value. -/
theorem route_wraps_handler_results {S : Type} (ep : Endpoint S)
    (req : Request) (port : JSVal) (s : S) (h : Handler S)
    (hreg : lookupRoute ep.routes req.name = some h)
    (hsilent : req.silent = false) :
    (∀ p s1, h s (buildArguments req port) = (.promise p, s1) →
        ep.route req port s = (some (.promise p), s1)) ∧
    (∀ r s1, h s (buildArguments req port) = (.response r, s1) →
        ep.route req port s = (some (.response r), s1)) ∧
    (∀ v s1, h s (buildArguments req port) = (.value v, s1) →
        ep.route req port s = (some (.response (Message.success v none)), s1)) := by
  have hf : ep.findRoute req.name = some h := findRoute_of_registered ep req.name h hreg
  refine ⟨fun p s1 hout => ?_, fun r s1 hout => ?_, fun v s1 hout => ?_⟩ <;>
    simp [Endpoint.route, hf, Endpoint.routeCall, hout, hsilent]

/-- Witness for C4 at the concrete endpoint: the promise-returning handler
passes its promise through, the response-returning handler passes its
`Failure` through, and the value-returning handler is `Success`-wrapped. -/
theorem route_wraps_handler_results_witness :
    (lookupRoute exEndpoint.routes "pend" = some pendingHandler ∧
      exEndpoint.route (Message.request "pend" .undefined) .undefined 0 =
        (some (.promise ⟨7⟩), 0)) ∧
    (lookupRoute exEndpoint.routes "ready" = some readyHandler ∧
      exEndpoint.route (Message.request "ready" .undefined) .undefined 0 =
        (some (.response (Message.failure (.str "nope") .undefined none)), 0)) ∧
    (lookupRoute exEndpoint.routes "ping" = some pongHandler ∧
      exEndpoint.route (Message.request "ping" .undefined) .undefined 0 =
        (some (.response (Message.success (.str "pong") none)), 0)) :=
  ⟨⟨rfl, (route_wraps_handler_results exEndpoint (Message.request "pend" .undefined)
      .undefined 0 pendingHandler rfl rfl).1 ⟨7⟩ 0 rfl⟩,
   ⟨rfl, (route_wraps_handler_results exEndpoint (Message.request "ready" .undefined)
      .undefined 0 readyHandler rfl rfl).2.1
        (Message.failure (.str "nope") .undefined none) 0 rfl⟩,
   ⟨rfl, (route_wraps_handler_results exEndpoint (Message.request "ping" .undefined)
      .undefined 0 pongHandler rfl rfl).2.2 (.str "pong") 0 rfl⟩⟩

/-- C5: for every request with `silent = true` whose name resolves to a
handler, `route()` invokes the handler — the final state is exactly the
state the handler invocation produces, so its side effects occur — but
returns no value to the caller, regardless of what the handler returned. -/
theorem silent_route_runs_handler {S : Type} (ep : Endpoint S)
    (req : Request) (port : JSVal) (s : S) (h : Handler S)
    (hfind : ep.findRoute req.name = some h)
    (hsilent : req.silent = true) :
    ep.route req port s = (none, (h s (buildArguments req port)).2) := by
  simp only [Endpoint.route, hfind, hsilent]
  simp [routeCall_state]

/-- Witness for C5: a silent request to the counter route returns nothing,
yet the side-effect counter was incremented from 0 to 1. -/
theorem silent_route_runs_handler_witness :
    exEndpoint.findRoute "count" = some counterHandler ∧
    exEndpoint.route { Message.request "count" .undefined with silent := true } .undefined 0 =
      (none, 1) :=
  ⟨findRoute_of_registered exEndpoint "count" counterHandler rfl,
   silent_route_runs_handler exEndpoint
     { Message.request "count" .undefined with silent := true } .undefined 0
     counterHandler (findRoute_of_registered exEndpoint "count" counterHandler rfl) rfl⟩

/-- C6: for every request whose name is neither a registered handler nor
matched by any plain or regexp pipe, `route()` returns — synchronously, as a
ready `Response` rather than a promise — an `Unknown` response with code 404
whose message includes the requested name. -/
theorem unknown_route_404 {S : Type} (ep : Endpoint S) (req : Request)
    (port : JSVal) (s : S)
    (hfind : ep.findRoute req.name = none) :
    ep.route req port s =
      (some (.response (Response.unknown none
          ("Unknown route " ++ squote ++ req.name ++ squote))), s) ∧
    Response.code (Response.unknown none
        ("Unknown route " ++ squote ++ req.name ++ squote)) = 404 ∧
    ∃ pre suf,
      ("Unknown route " ++ squote ++ req.name ++ squote) = pre ++ req.name ++ suf := by
  refine ⟨?_, rfl, ⟨"Unknown route " ++ squote, squote, rfl⟩⟩
  simp [Endpoint.route, hfind, Message.unknown]

/-- Witness for C6: a request for the unmatched name `"nope"`. -/
theorem unknown_route_404_witness :
    exEndpoint.findRoute "nope" = none ∧
    exEndpoint.route (Message.request "nope" .undefined) .undefined 0 =
      (some (.response (Response.unknown none
          ("Unknown route " ++ squote ++ "nope" ++ squote))), 0) :=
  ⟨rfl,
   (unknown_route_404 exEndpoint (Message.request "nope" .undefined) .undefined 0 rfl).1⟩

/-- C1 counterexample: the catch branch of `_routeCall` calls
`Message.failure(err?.message)`, so a throwing handler yields a `Failure`
with code 403, not a `ScriptError` with code 500; and a thrown bare string
(no `message` field) yields `message = undefined`, not the thrown value
itself.  Shown at two concrete non-silent requests on the concrete
endpoint. -/
theorem thrown_not_500_counterexample :
    exEndpoint.route (Message.request "boomObj" .undefined) .undefined 0 =
      (some (.response (Response.failure none .null (.str "kaboom"))), 0) ∧
    Response.code (Response.failure none .null (.str "kaboom")) = 403 ∧
    (403 : Nat) ≠ 500 ∧
    exEndpoint.route (Message.request "boomStr" .undefined) .undefined 0 =
      (some (.response (Response.failure none .null .undefined)), 0) ∧
    JSVal.undefined ≠ .str "oops" :=
  ⟨rfl, rfl, by decide, rfl, nofun⟩

/-- C1 (amended): for every registered route whose handler throws when
invoked, `route()` on a non-silent request catches the exception and returns
a `Failure` response with code 403 whose message is the `message` field of
the thrown value (`undefined` when the thrown value has none); the exception
never propagates to the caller of `route()` — the routed call completes with
this `Response` value. -/
theorem thrown_handler_caught {S : Type} (ep : Endpoint S) (req : Request)
    (port : JSVal) (s s1 : S) (h : Handler S) (err : JSVal)
    (hreg : lookupRoute ep.routes req.name = some h)
    (hsilent : req.silent = false)
    (hthrow : h s (buildArguments req port) = (.thrown err, s1)) :
    ep.route req port s =
      (some (.response (Message.failure (err.get "message") .undefined none)), s1) ∧
    Response.code (Message.failure (err.get "message") .undefined none) = 403 := by
  have hf : ep.findRoute req.name = some h := findRoute_of_registered ep req.name h hreg
  refine ⟨?_, rfl⟩
  simp [Endpoint.route, hf, Endpoint.routeCall, hthrow, hsilent]

/-- Witness for the amended C1: the object-throwing route is caught and
converted to the 403 `Failure` carrying `"kaboom"`. -/
theorem thrown_handler_caught_witness :
    lookupRoute exEndpoint.routes "boomObj" = some throwObjHandler ∧
    exEndpoint.route (Message.request "boomObj" .undefined) .undefined 0 =
      (some (.response (Message.failure (.str "kaboom") .undefined none)), 0) :=
  ⟨rfl,
   (thrown_handler_caught exEndpoint (Message.request "boomObj" .undefined) .undefined
      0 0 throwObjHandler (.obj [("message", .str "kaboom")]) rfl rfl rfl).1⟩

/-! ## Transport adapter theorems -/

/-- C2: for both request/response transport adapters — the native-host
`request` and the background `sendMessage` listener — the deferred result
resolves exactly when the downstream response has code 200; for every other
code (e.g. 403) it rejects with the error-shaped
`Message.error(response.message, response.type)` value, which for a plain
string message carries the original message verbatim (and the original type,
`null`-defaulted) — and no retry exists: the settle functions are the only
place the deferred result is decided, once, from the single downstream
response. -/
theorem adapters_settle_on_200 {S : Type} (resp : NativeResponse)
    (ep : Endpoint S) (req : Request) (port : JSVal) (s : S) :
    ((resp.code = 200 → NativeHostClient.settleResponse resp = .resolved resp) ∧
     (resp.code ≠ 200 →
        NativeHostClient.settleResponse resp =
          .rejected (Message.error resp.message resp.type_ none)) ∧
     (∀ m : String, resp.message = .str m → resp.code ≠ 200 →
        NativeHostClient.settleResponse resp =
          .rejected (Response.scriptError none (jsOr resp.type_ .null) (.str m)))) ∧
    (∀ r : Response, ∀ s1 : S,
      Endpoint.route ep req port s = (some (.response r), s1) →
      ((r.code = 200 →
          BackgroundListener.handleRequest ep req port s =
            (.settled (.resolved r), s1)) ∧
       (r.code ≠ 200 →
          BackgroundListener.handleRequest ep req port s =
            (.settled (.rejected (Message.error r.message r.type_ none)), s1)))) := by
  refine ⟨⟨fun h200 => ?_, fun hne => ?_, fun m hm hne => ?_⟩,
          fun r s1 hroute => ⟨fun h200 => ?_, fun hne => ?_⟩⟩
  · simp [NativeHostClient.settleResponse, h200]
  · simp [NativeHostClient.settleResponse, hne]
  · simp only [NativeHostClient.settleResponse, hne, if_neg, beq_iff_eq, hm]
    simp [Message.error, JSVal.isObjType, JSVal.isNull, JSVal.get, JSVal.truthy, hne]
  · simp [BackgroundListener.handleRequest, hroute, h200]
  · simp [BackgroundListener.handleRequest, hroute, hne]

/-- Witness for C2 with the literal downstream objects of the spec scenario:
`(code 200)` resolves and `(code 403, message "x")` rejects, on both
adapters. -/
theorem adapters_settle_on_200_witness :
    (NativeHostClient.settleResponse { code := 200, message := .undefined, type_ := .undefined } =
      .resolved { code := 200, message := .undefined, type_ := .undefined }) ∧
    (NativeHostClient.settleResponse { code := 403, message := .str "x", type_ := .undefined } =
      .rejected (Response.scriptError none .null (.str "x"))) ∧
    (exEndpoint.route (Message.request "ping" .undefined) .undefined 0 =
        (some (.response (Message.success (.str "pong") none)), 0) ∧
      BackgroundListener.handleRequest exEndpoint (Message.request "ping" .undefined) .undefined 0 =
        (.settled (.resolved (Message.success (.str "pong") none)), 0)) ∧
    (exEndpoint.route (Message.request "ready" .undefined) .undefined 0 =
        (some (.response (Message.failure (.str "nope") .undefined none)), 0) ∧
      BackgroundListener.handleRequest exEndpoint (Message.request "ready" .undefined) .undefined 0 =
        (.settled (.rejected (Response.scriptError none .null (.str "nope"))), 0)) := by
  have h200 := (adapters_settle_on_200
    { code := 200, message := .undefined, type_ := .undefined }
    exEndpoint (Message.request "ping" .undefined) .undefined 0).1.1 rfl
  have h403 := (adapters_settle_on_200
    { code := 403, message := .str "x", type_ := .undefined }
    exEndpoint (Message.request "ping" .undefined) .undefined 0).1.2.2 "x" rfl (by decide)
  have hbg200 := ((adapters_settle_on_200
    { code := 200, message := .undefined, type_ := .undefined }
    exEndpoint (Message.request "ping" .undefined) .undefined 0).2
    (Message.success (.str "pong") none) 0 rfl).1 rfl
  have hbg403 := ((adapters_settle_on_200
    { code := 200, message := .undefined, type_ := .undefined }
    exEndpoint (Message.request "ready" .undefined) .undefined 0).2
    (Message.failure (.str "nope") .undefined none) 0 rfl).2 (by decide)
  exact ⟨h200, h403, ⟨rfl, by simpa using hbg200⟩, ⟨rfl, by simpa using hbg403⟩⟩

/-! ## Download service theorems -/

/-- Helper: deleting a job right after an in-place update of the same id is
the same as deleting it from the original registry (the update preserves
keys). -/
theorem deleteJob_updateJob (st : DsState) (id : Nat) (j : DJob) :
    (st.updateJob id j).deleteJob id = st.deleteJob id := by
  unfold DsState.updateJob DsState.deleteJob
  simp only [DsState.mk.injEq]
  induction st.jobs with
  | nil => rfl
  | cons e rest ih =>
    by_cases he : e.1 = id
    · simpa [List.filter_cons, he] using ih
    · simpa [List.filter_cons, he] using ih

/-- Helper: after deletion, the id no longer resolves in the registry. -/
theorem lookupJob_deleteJob (st : DsState) (id : Nat) :
    (st.deleteJob id).lookupJob id = none := by
  unfold DsState.deleteJob DsState.lookupJob
  induction st.jobs with
  | nil => rfl
  | cons e rest ih =>
    by_cases he : e.1 = id
    · simpa [List.filter_cons, he] using ih
    · simpa [List.filter_cons, List.find?, he] using ih

/-- C7: for every tracked download job (present in the registry, with a
response object and an `onFinish` callback) whose `onChanged` delta reports
state `complete`, a recorded `fileSize` of 0 notifies the caller with
`success = false` and reason `"Empty content"` and removes both the
downloaded file and its history entry (`removeFile` then `erase`); a nonzero
`fileSize` notifies `success = true` (reason defaulted to `""`) with no
browser cleanup call, so the file is kept.  In both terminal cases the job is
deleted from the in-memory registry. -/
theorem download_complete_terminal (st : DsState) (id : Nat) (job : DJob)
    (r : DownloadJobResponse)
    (hjob : st.lookupJob id = some job)
    (hresp : job.response = some r)
    (hfin : job.onFinish = true) :
    (job.fileSize = 0 →
      onChangedListener st
        { id := id, error := none, filename := none, fileSize := none,
          totalBytes := none, existsD := none, state := some "complete" } =
        .ok (st.deleteJob id)
          [.notify job.port
             { r with downloading := false, success := false,
                      reason := .str "Empty content", destination := job.filename },
           .removeFile id, .erase id]) ∧
    (job.fileSize ≠ 0 →
      onChangedListener st
        { id := id, error := none, filename := none, fileSize := none,
          totalBytes := none, existsD := none, state := some "complete" } =
        .ok (st.deleteJob id)
          [.notify job.port
             { r with downloading := false, success := true,
                      reason := .str "", destination := job.filename }]) ∧
    (st.deleteJob id).lookupJob id = none := by
  refine ⟨fun hz => ?_, fun hnz => ?_, lookupJob_deleteJob st id⟩
  · simp [onChangedListener, applyDeltaFields, notifyDownloadJob, cleanupJob,
          hjob, hresp, hfin, hz, jsOr, JSVal.truthy, deleteJob_updateJob]
  · simp [onChangedListener, applyDeltaFields, notifyDownloadJob, cleanupJob,
          hjob, hresp, hfin, hnz, jsOr, JSVal.truthy, deleteJob_updateJob]

/-- A concrete tracked download response. -/
def exDJResponse : DownloadJobResponse :=
  { id := .num 5, name := .str "file", destination := .str "",
    reason := .str "", success := false, downloading := true }

/-- A concrete tracked job whose recorded `fileSize` is 0. -/
def exDJob : DJob :=
  { port := .obj [("contextId", .str "ctx")], response := some exDJResponse,
    onFinish := true, filename := .str "dl/file.pdf", fileSize := 0,
    totalBytes := 0, existsF := none }

/-- A concrete tracked job whose recorded `fileSize` is 1234. -/
def exDJobBig : DJob := { exDJob with fileSize := 1234 }

/-- A registry holding the zero-size job under id 5 and the nonzero one
under id 6. -/
def exDsState : DsState := { jobs := [(5, exDJob), (6, exDJobBig)] }

/-- Witness for C7: the zero-size job notifies failure with
`"Empty content"` and triggers `removeFile` + `erase`; the nonzero job
notifies success with no cleanup call; both leave the registry without the
job. -/
theorem download_complete_terminal_witness :
    exDsState.lookupJob 5 = some exDJob ∧
    onChangedListener exDsState
      { id := 5, error := none, filename := none, fileSize := none,
        totalBytes := none, existsD := none, state := some "complete" } =
      .ok { jobs := [(6, exDJobBig)] }
        [.notify (.obj [("contextId", .str "ctx")])
           { id := .num 5, name := .str "file", destination := .str "dl/file.pdf",
             reason := .str "Empty content", success := false, downloading := false },
         .removeFile 5, .erase 5] ∧
    onChangedListener exDsState
      { id := 6, error := none, filename := none, fileSize := none,
        totalBytes := none, existsD := none, state := some "complete" } =
      .ok { jobs := [(5, exDJob)] }
        [.notify (.obj [("contextId", .str "ctx")])
           { id := .num 5, name := .str "file", destination := .str "dl/file.pdf",
             reason := .str "", success := true, downloading := false }] :=
  ⟨rfl,
   (download_complete_terminal exDsState 5 exDJob exDJResponse rfl rfl rfl).1 rfl,
   (download_complete_terminal exDsState 6 exDJobBig exDJResponse rfl rfl rfl).2.1
     (by decide)⟩

/-! ## Printer service theorem -/

/-- C8: for every print job submitted with a falsy `printerName` (none
supplied on the job), `PrinterService.createJob` returns `undefined` with no
native host call, no completion callback invocation, and with the jobs
registry and all other service state unchanged. -/
theorem printjob_without_printer_dropped (st : PsState) (port : JSVal)
    (job : PrintJobIn) (hname : job.printerName.truthy = false) :
    PrinterService.createJob st port job = (.undefined, st, []) := by
  simp [PrinterService.createJob, hname]

/-- Witness for C8: a configured service and a job carrying no
`printerName`; nothing happens. -/
theorem printjob_without_printer_dropped_witness :
    JSVal.truthy .undefined = false ∧
    PrinterService.createJob
      { dirPrinters := some "prn/", hostClientConfigured := true,
        jobs := [("other.pdf",
          { filename := "other.pdf", printerName := .str "HP",
            success := none, reason := none })] }
      (.obj [("contextId", .str "ctx")])
      { filename := "doc.pdf", printerName := .undefined, onFinish := true } =
      (.undefined,
       { dirPrinters := some "prn/", hostClientConfigured := true,
         jobs := [("other.pdf",
           { filename := "other.pdf", printerName := .str "HP",
             success := none, reason := none })] },
       []) :=
  ⟨rfl,
   printjob_without_printer_dropped
     { dirPrinters := some "prn/", hostClientConfigured := true,
       jobs := [("other.pdf",
         { filename := "other.pdf", printerName := .str "HP",
           success := none, reason := none })] }
     (.obj [("contextId", .str "ctx")])
     { filename := "doc.pdf", printerName := .undefined, onFinish := true } rfl⟩

/-! ## ScriptError constructor theorem -/

/-- C9 (evidence of the code bug): constructing a `ScriptError` from the
Error-like input with `message = "boom"` and `type = "RangeError"` yields a
response whose `message` is `"boom"` as documented, but whose `type` is
`null`, not `"RangeError"`: the constructor reassigns `err = err.message`
before probing `err.type`, so the `type` probe reads the extracted message
(a string, with no `type` field) and falls back to the absent parameter. -/
theorem scripterror_drops_input_type :
    Message.error (.obj [("message", .str "boom"), ("type", .str "RangeError")])
        .undefined none =
      .scriptError none .null (.str "boom") ∧
    Response.message (.scriptError none .null (.str "boom")) = .str "boom" ∧
    Response.type_ (.scriptError none .null (.str "boom")) = .null ∧
    (JSVal.null ≠ .str "RangeError") :=
  ⟨rfl, rfl, rfl, nofun⟩

/-! ## Join / forward theorems -/

/-- C10: for two endpoints joined via `join()` where each exposes a callable
`request` method, a pipe-resolved call on either side forwards through
`forward()` to the request method of the other; after the join is removed by
setting the forwarder to the empty object (no callable `request`, no
callable `post`), a subsequent pipe-resolved call returns `undefined`
without throwing — the synthetic pipe handler yields the plain value
`undefined` (which `_routeCall` then wraps as `Success(undefined)`, so the
routed call also completes normally rather than raising). -/
theorem join_forward_then_empty {S : Type} (a b : Endpoint S) (name : String)
    (s : S) (fa fb : String → JSVal → S → HandlerOut × S)
    (hfa : a.requestM = some fa) (hfb : b.requestM = some fb) :
    (∀ p : JSVal, Endpoint.createPipe (a.join b).1 name s [p] = fb name p s) ∧
    (∀ p : JSVal, Endpoint.createPipe (a.join b).2 name s [p] = fa name p s) ∧
    (∀ args : List JSVal,
      Endpoint.createPipe
        { (a.join b).1 with forwarder := Forwarder.empty S } name s args =
        (.value .undefined, s)) ∧
    (∀ req : Request, ∀ port : JSVal,
      req.name = name → req.silent = false →
      lookupRoute a.routes name = none →
      a.pipesPlain.contains name = true →
      Endpoint.route
          { (a.join b).1 with forwarder := Forwarder.empty S } req port s =
        (some (.response (Message.success .undefined none)), s)) := by
  refine ⟨fun p => ?_, fun p => ?_, fun args => ?_, fun req port hn hsil hlk hpl => ?_⟩
  · simp [Endpoint.createPipe, Endpoint.forward, Endpoint.join,
          Endpoint.asForwarder, hfb]
  · simp [Endpoint.createPipe, Endpoint.forward, Endpoint.join,
          Endpoint.asForwarder, hfa]
  · match args with
    | [] => simp [Endpoint.createPipe, Endpoint.forward, Forwarder.empty]
    | [p] => simp [Endpoint.createPipe, Endpoint.forward, Forwarder.empty]
    | p :: q :: rest => simp [Endpoint.createPipe, Endpoint.forward, Forwarder.empty]
  · have hfind :
        Endpoint.findRoute
          { (a.join b).1 with forwarder := Forwarder.empty S } req.name =
          some (Endpoint.createPipe
            { (a.join b).1 with forwarder := Forwarder.empty S } req.name) := by
      unfold Endpoint.findRoute
      simp only [Endpoint.join]
      rw [hn, hlk, hpl]
      simp
    have hpipe :
        ∀ args : List JSVal,
          Endpoint.createPipe
            { (a.join b).1 with forwarder := Forwarder.empty S } req.name s args =
            (.value .undefined, s) := by
      intro args
      match args with
      | [] => simp [Endpoint.createPipe, Endpoint.forward, Forwarder.empty]
      | [p] => simp [Endpoint.createPipe, Endpoint.forward, Forwarder.empty]
      | p :: q :: rest => simp [Endpoint.createPipe, Endpoint.forward, Forwarder.empty]
    simp [Endpoint.route, hfind, Endpoint.routeCall, hpipe, hsil]

/-- The `request` capability of the first concrete joined endpoint: tags the
forwarded call with `"A"`. -/
def reqFnA : String → JSVal → Nat → HandlerOut × Nat :=
  fun route params s =>
    (.response (Message.success (.arr [.str "A", .str route, params]) none), s)

/-- The `request` capability of the second concrete joined endpoint: tags the
forwarded call with `"B"`. -/
def reqFnB : String → JSVal → Nat → HandlerOut × Nat :=
  fun route params s =>
    (.response (Message.success (.arr [.str "B", .str route, params]) none), s)

/-- First concrete endpoint for the join scenario: pipes
`"companion.go"`. -/
def epA : Endpoint Nat :=
  { routes := [], pipesPlain := ["companion.go"], pipesRegexp := [],
    forwarder := Forwarder.empty Nat, requestM := some reqFnA, postM := none }

/-- Second concrete endpoint for the join scenario. -/
def epB : Endpoint Nat :=
  { routes := [], pipesPlain := ["companion.go"], pipesRegexp := [],
    forwarder := Forwarder.empty Nat, requestM := some reqFnB, postM := none }

/-- Witness for C10: after `epA.join epB`, a pipe-resolved call on the A
side reaches the `request` method of B and vice versa; with the forwarder
replaced by the empty object, the pipe handler returns `undefined` and the
routed call completes as `Success(undefined)`. -/
theorem join_forward_then_empty_witness :
    epA.requestM = some reqFnA ∧ epB.requestM = some reqFnB ∧
    Endpoint.createPipe (epA.join epB).1 "companion.go" 0 [.str "p"] =
      (.response (Message.success
        (.arr [.str "B", .str "companion.go", .str "p"]) none), 0) ∧
    Endpoint.createPipe (epA.join epB).2 "companion.go" 0 [.str "p"] =
      (.response (Message.success
        (.arr [.str "A", .str "companion.go", .str "p"]) none), 0) ∧
    Endpoint.createPipe
        { (epA.join epB).1 with forwarder := Forwarder.empty Nat }
        "companion.go" 0 [.str "p"] =
      (.value .undefined, 0) ∧
    Endpoint.route
        { (epA.join epB).1 with forwarder := Forwarder.empty Nat }
        (Message.request "companion.go" (.str "p")) .undefined 0 =
      (some (.response (Message.success .undefined none)), 0) :=
  ⟨rfl, rfl,
   (join_forward_then_empty epA epB "companion.go" 0 reqFnA reqFnB rfl rfl).1
     (.str "p"),
   (join_forward_then_empty epA epB "companion.go" 0 reqFnA reqFnB rfl rfl).2.1
     (.str "p"),
   (join_forward_then_empty epA epB "companion.go" 0 reqFnA reqFnB rfl rfl).2.2.1
     [.str "p"],
   (join_forward_then_empty epA epB "companion.go" 0 reqFnA reqFnB rfl rfl).2.2.2
     (Message.request "companion.go" (.str "p")) .undefined rfl rfl rfl rfl⟩

end Nmind
